import Mathlib

/-!
Verification of the Sim Studio Python SDK client
(`packages/python-sdk/simstudio/__init__.py`).

The client is embedded shallowly:

* decoded JSON values (the result of requests' `response.json()`) are the
  inductive `Json`; Python `None` is `Json.null`, so a dataclass field whose
  value is "absent" holds `Json.null`, exactly as in Python where
  `dict.get(k)` returns `None` both for a missing key and for a JSON null.
  JSON numerals are modelled as integers: no claim involves a non-integer
  numeral, and the code never computes with them.
* the network is a function from the constructed `HttpRequest` to a
  `TransportOutcome`: a timeout (`requests.Timeout`), another transport
  failure (`requests.RequestException`, carrying `str(e)`), or a `Response`.
* `Response.body` models `response.json()`: `Except.error m` when the body is
  not parseable JSON (`requests.exceptions.JSONDecodeError`, which since
  requests 2.27 is both a `ValueError` and a `RequestException`, with
  `str(e) = m`), otherwise the decoded value.
* `Response.ok` is requests' `ok`, i.e. `status_code < 400` (for the real
  HTTP status range 100-599).
* Python floats are never computed with: the `timeout` argument is only
  interpolated into a message and handed to the transport, so it is carried
  as its decimal rendering (a `String`).
* exceptions other than `SimStudioError` that escape the client
  (`AttributeError` from `x.get` on a non-dict, `KeyError` from
  `d['success']`, `TypeError` from subscripting a non-dict) are the
  `PyError` side of `CallError`; raising is returning `Except.error`.
* the mutable client object is the structure `SimStudioClient`; the
  `requests.Session` is modelled by its header dict (an insertion-ordered
  association list), seeded from arbitrary stock default headers.
-/

namespace SimStudio

/-- A decoded JSON / Python value as produced by `response.json()`.
`null` doubles as Python `None`. -/
inductive Json where
  | null
  | bool (b : Bool)
  | num (n : Int)
  | str (s : String)
  | arr (elems : List Json)
  | obj (fields : List (String × Json))

/-- First-match lookup in a decoded JSON object (Python dict indexing;
dicts decoded from JSON have distinct keys). -/
def lookupField : List (String × Json) → String → Option Json
  | [], _ => none
  | (k, v) :: rest, key => if k = key then some v else lookupField rest key

/-- Python `d.get(key, default)`: the stored value when the key is present
(even when that value is `None`), the default otherwise. -/
def dictGetD (fields : List (String × Json)) (key : String) (default : Json) : Json :=
  match lookupField fields key with
  | some v => v
  | none => default

/-- Python `d.get(key)`: `None` when the key is missing. -/
def dictGet (fields : List (String × Json)) (key : String) : Json :=
  dictGetD fields key Json.null

/-- The `WorkflowExecutionResult` dataclass. Field types are not enforced at
runtime in Python, so every field holds a decoded value; the defaults mirror
the dataclass defaults (`None`). -/
structure WorkflowExecutionResult where
  success : Json
  output : Json := Json.null
  error : Json := Json.null
  logs : Json := Json.null
  metadata : Json := Json.null
  trace_spans : Json := Json.null
  total_duration : Json := Json.null

/-- The `WorkflowStatus` dataclass. -/
structure WorkflowStatus where
  is_deployed : Json
  deployed_at : Json := Json.null
  is_published : Json := Json.bool false
  needs_redeployment : Json := Json.bool false

/-- The `SimStudioError` exception: `message`, optional `code`, optional HTTP
`status`. `code` holds whatever decoded value the error body supplied
(`Json.null` = absent); `status` is `none` when the failure did not stem from
an HTTP response. -/
structure SimStudioError where
  message : Json
  code : Json := Json.null
  status : Option Nat := none

/-- A non-SDK Python exception escaping the client uncaught. -/
inductive PyError where
  /-- `AttributeError`: `x.get` where the decoded body is not a dict
  (carries the attribute name). -/
  | attributeError (attr : String)
  /-- `KeyError`: `d[key]` with the key missing from the dict. -/
  | keyError (key : String)
  /-- `TypeError`: subscripting a non-dict decoded value with a string key
  (carries the key). -/
  | typeError (key : String)

/-- Everything a call can raise: the SDK's own exception or an escaping
non-SDK Python exception. -/
inductive CallError where
  | simStudioError (e : SimStudioError)
  | pyError (e : PyError)

/-- An HTTP response as the client observes it: status code, reason phrase,
and the outcome of `response.json()` (`Except.error m` when the body is not
parseable JSON, `m` being `str` of the decode exception). -/
structure Response where
  status_code : Nat
  reason : String
  body : Except String Json

/-- requests' `response.ok`: true exactly when `raise_for_status()` would not
raise, i.e. the status code is below 400 (for real HTTP statuses 100-599). -/
def Response.ok (r : Response) : Bool :=
  decide (r.status_code < 400)

/-- What the transport produced for one request: `requests.Timeout`, another
`requests.RequestException` (each carrying `str(e)`), or a response. -/
inductive TransportOutcome where
  | timeout (cause : String)
  | requestFailure (cause : String)
  | response (r : Response)

/-- The request the session sends: method, URL, headers, optional JSON body,
optional per-call timeout (its decimal rendering). -/
structure HttpRequest where
  method : String
  url : String
  headers : List (String × String)
  body : Option Json := none
  timeout : Option String := none

/-- A transport: the network's answer to each request. -/
abbrev Transport := HttpRequest → TransportOutcome

/-- Python `s.rstrip('/')`: remove every trailing `'/'`. -/
def rstripSlash (s : String) : String :=
  String.mk ((s.data.reverse.dropWhile fun c => c = '/').reverse)

/-- Whether a string's last character is `'/'`. -/
def endsWithSlash (s : String) : Bool :=
  match s.data.getLast? with
  | some c => decide (c = '/')
  | none => false

/-- Python `dict.update` with a single key: replace the value in place when
the key is present (keeping insertion order), append otherwise. -/
def updateHeader : List (String × String) → String → String → List (String × String)
  | [], key, v => [(key, v)]
  | (k, w) :: rest, key, v =>
      if k = key then (key, v) :: updateHeader rest key v
      else (k, w) :: updateHeader rest key v

/-- First-match lookup in a header dict. -/
def lookupHeader : List (String × String) → String → Option String
  | [], _ => none
  | (k, v) :: rest, key => if k = key then some v else lookupHeader rest key

/-- The client's state: `api_key`, `base_url`, and the session's header dict
(the only part of the `requests.Session` the code interacts with). -/
structure SimStudioClient where
  api_key : String
  base_url : String
  session_headers : List (String × String)

/-- The default `base_url` of the constructor. -/
def defaultBaseUrl : String := "https://simstudio.ai"

/-- `SimStudioClient.__init__`: store the key, strip every trailing slash
from `base_url`, and update the session's stock headers with the API-key and
content-type headers (in that insertion order). -/
def SimStudioClient.init (api_key : String) (base_url : String)
    (stock_headers : List (String × String)) : SimStudioClient :=
  { api_key := api_key
    base_url := rstripSlash base_url
    session_headers :=
      updateHeader (updateHeader stock_headers "X-API-Key" api_key)
        "Content-Type" "application/json" }

/-- `set_api_key`: store the new key and update the session header dict. -/
def SimStudioClient.set_api_key (c : SimStudioClient) (api_key : String) :
    SimStudioClient :=
  { c with
    api_key := api_key
    session_headers := updateHeader c.session_headers "X-API-Key" api_key }

/-- `set_base_url`: store the new URL with every trailing slash stripped.
The api key and the session headers are untouched. -/
def SimStudioClient.set_base_url (c : SimStudioClient) (base_url : String) :
    SimStudioClient :=
  { c with base_url := rstripSlash base_url }

/-- Python `input_data or {}`: `None` and the (falsy) empty dict both give
`{}`; a non-empty dict passes through — in every case the posted body is the
dict's decoded value. -/
def orEmptyDict (input_data : Option (List (String × Json))) : Json :=
  match input_data with
  | none => Json.obj []
  | some fields => Json.obj fields

/-- The POST request `execute_workflow` sends:
`{base_url}/api/workflows/{workflow_id}/execute`, the session headers,
`input_data or {}` as JSON body, bounded by `timeout`. -/
def SimStudioClient.executeRequest (c : SimStudioClient) (workflow_id : String)
    (input_data : Option (List (String × Json))) (timeout : String) : HttpRequest :=
  { method := "POST"
    url := c.base_url ++ "/api/workflows/" ++ workflow_id ++ "/execute"
    headers := c.session_headers
    body := some (orEmptyDict input_data)
    timeout := some timeout }

/-- The GET request `get_workflow_status` sends:
`{base_url}/api/workflows/{workflow_id}/status`, the session headers, no
body, no per-call timeout. -/
def SimStudioClient.statusRequest (c : SimStudioClient) (workflow_id : String) :
    HttpRequest :=
  { method := "GET"
    url := c.base_url ++ "/api/workflows/" ++ workflow_id ++ "/status"
    headers := c.session_headers }

/-- The fallback error message `'HTTP {status_code}: {reason}'`. -/
def httpFallback (r : Response) : String :=
  "HTTP " ++ toString r.status_code ++ ": " ++ r.reason

/-- The `if not response.ok` block shared verbatim by both calls: decode the
body; a JSON dict yields `SimStudioError(body.get('error', fallback),
body.get('code'), status_code)`; a `ValueError` from `response.json()` is
caught and yields the fallback message with no code; a decoded non-dict makes
`error_data.get` raise an uncaught `AttributeError`. -/
def errorFromResponse (r : Response) : CallError :=
  match r.body with
  | Except.ok (Json.obj fields) =>
      CallError.simStudioError
        { message := dictGetD fields "error" (Json.str (httpFallback r))
          code := dictGet fields "code"
          status := some r.status_code }
  | Except.ok _ => CallError.pyError (PyError.attributeError "get")
  | Except.error _ =>
      CallError.simStudioError
        { message := Json.str (httpFallback r)
          code := Json.null
          status := some r.status_code }

/-- The body of `execute_workflow` after the request is sent. A timeout is
caught by `except requests.Timeout` first; any other transport failure by
`except requests.RequestException`; a decode failure of a < 400 response is a
`requests.exceptions.JSONDecodeError`, i.e. also a `RequestException`, and
lands in the same handler. On a < 400 response with a decoded dict,
`result_data['success']` must be present (otherwise the `KeyError` escapes);
subscripting a decoded non-dict raises an uncaught `TypeError`. -/
def handleExecuteOutcome (timeout : String) (t : TransportOutcome) :
    Except CallError WorkflowExecutionResult :=
  match t with
  | TransportOutcome.timeout _ =>
      Except.error (CallError.simStudioError
        { message := Json.str ("Workflow execution timed out after " ++ timeout ++ " seconds")
          code := Json.str "TIMEOUT" })
  | TransportOutcome.requestFailure cause =>
      Except.error (CallError.simStudioError
        { message := Json.str ("Failed to execute workflow: " ++ cause)
          code := Json.str "EXECUTION_ERROR" })
  | TransportOutcome.response r =>
      if r.ok then
        match r.body with
        | Except.ok (Json.obj fields) =>
            match lookupField fields "success" with
            | some v =>
                Except.ok
                  { success := v
                    output := dictGet fields "output"
                    error := dictGet fields "error"
                    logs := dictGet fields "logs"
                    metadata := dictGet fields "metadata"
                    trace_spans := dictGet fields "traceSpans"
                    total_duration := dictGet fields "totalDuration" }
            | none => Except.error (CallError.pyError (PyError.keyError "success"))
        | Except.ok _ => Except.error (CallError.pyError (PyError.typeError "success"))
        | Except.error m =>
            Except.error (CallError.simStudioError
              { message := Json.str ("Failed to execute workflow: " ++ m)
                code := Json.str "EXECUTION_ERROR" })
      else
        Except.error (errorFromResponse r)

/-- `execute_workflow`: build the POST request, send it, handle the outcome. -/
def SimStudioClient.execute_workflow (c : SimStudioClient) (workflow_id : String)
    (input_data : Option (List (String × Json))) (timeout : String)
    (transport : Transport) : Except CallError WorkflowExecutionResult :=
  handleExecuteOutcome timeout (transport (c.executeRequest workflow_id input_data timeout))

/-- The body of `get_workflow_status` after the request is sent. There is no
`except requests.Timeout` clause here: a timeout is a `RequestException` and
is caught by the single handler, as is a decode failure of a < 400 response.
On a < 400 response with a decoded dict every field is read with
`.get(...)` and a default; a decoded non-dict raises an uncaught
`AttributeError`. -/
def handleStatusOutcome (t : TransportOutcome) : Except CallError WorkflowStatus :=
  match t with
  | TransportOutcome.timeout cause =>
      Except.error (CallError.simStudioError
        { message := Json.str ("Failed to get workflow status: " ++ cause)
          code := Json.str "STATUS_ERROR" })
  | TransportOutcome.requestFailure cause =>
      Except.error (CallError.simStudioError
        { message := Json.str ("Failed to get workflow status: " ++ cause)
          code := Json.str "STATUS_ERROR" })
  | TransportOutcome.response r =>
      if r.ok then
        match r.body with
        | Except.ok (Json.obj fields) =>
            Except.ok
              { is_deployed := dictGetD fields "isDeployed" (Json.bool false)
                deployed_at := dictGet fields "deployedAt"
                is_published := dictGetD fields "isPublished" (Json.bool false)
                needs_redeployment := dictGetD fields "needsRedeployment" (Json.bool false) }
        | Except.ok _ => Except.error (CallError.pyError (PyError.attributeError "get"))
        | Except.error m =>
            Except.error (CallError.simStudioError
              { message := Json.str ("Failed to get workflow status: " ++ m)
                code := Json.str "STATUS_ERROR" })
      else
        Except.error (errorFromResponse r)

/-- `get_workflow_status`: build the GET request, send it, handle the
outcome. -/
def SimStudioClient.get_workflow_status (c : SimStudioClient) (workflow_id : String)
    (transport : Transport) : Except CallError WorkflowStatus :=
  handleStatusOutcome (transport (c.statusRequest workflow_id))

/-- `validate_workflow`: call `get_workflow_status`; return its
`is_deployed`; `except SimStudioError: return False`. A non-SDK exception is
not caught and propagates. -/
def SimStudioClient.validate_workflow (c : SimStudioClient) (workflow_id : String)
    (transport : Transport) : Except CallError Json :=
  match c.get_workflow_status workflow_id transport with
  | Except.ok status => Except.ok status.is_deployed
  | Except.error (CallError.simStudioError _) => Except.ok (Json.bool false)
  | Except.error (CallError.pyError e) => Except.error (CallError.pyError e)

/-- `execute_workflow_sync`: `return self.execute_workflow(workflow_id,
input_data, timeout)` — a pure passthrough. -/
def SimStudioClient.execute_workflow_sync (c : SimStudioClient) (workflow_id : String)
    (input_data : Option (List (String × Json))) (timeout : String)
    (transport : Transport) : Except CallError WorkflowExecutionResult :=
  c.execute_workflow workflow_id input_data timeout transport

/-- Modelled from the spec's words for comparison with the code ("removing
exactly one trailing slash if present"): drop the last character when it is
`'/'`, else return the string unchanged. -/
def stripOneTrailingSlash (s : String) : String :=
  if endsWithSlash s then String.mk s.data.dropLast else s

/-- Discriminator: the call returned a value. -/
def isOkResult {α : Type} : Except CallError α → Bool
  | Except.ok _ => true
  | Except.error _ => false

/-- Discriminator: the call raised the SDK's `SimStudioError`. -/
def isClientErrorOutcome {α : Type} : Except CallError α → Bool
  | Except.error (CallError.simStudioError _) => true
  | _ => false

/-- Discriminator: a non-SDK Python exception escaped. -/
def isPyErrorOutcome {α : Type} : Except CallError α → Bool
  | Except.error (CallError.pyError _) => true
  | _ => false

/-- The shape of transport outcome from which `execute_workflow` builds a
result: a response with `ok` status (< 400) whose body decodes to a dict
containing `'success'`. -/
def execSuccessShape : TransportOutcome → Bool
  | TransportOutcome.response r =>
      r.ok && (match r.body with
        | Except.ok (Json.obj fields) => (lookupField fields "success").isSome
        | _ => false)
  | _ => false

/-- The shapes on which `execute_workflow` lets a non-SDK exception escape:
a decoded non-dict body (any status), or an `ok` dict body without
`'success'`. -/
def execShapeViolation : TransportOutcome → Bool
  | TransportOutcome.response r =>
      (match r.body with
        | Except.ok (Json.obj fields) => r.ok && (lookupField fields "success").isNone
        | Except.ok _ => true
        | Except.error _ => false)
  | _ => false

/-- The shape of transport outcome from which `get_workflow_status` builds a
status: an `ok` (< 400) response whose body decodes to a dict. -/
def statusSuccessShape : TransportOutcome → Bool
  | TransportOutcome.response r =>
      r.ok && (match r.body with
        | Except.ok (Json.obj _) => true
        | _ => false)
  | _ => false

/-- The shapes on which `get_workflow_status` lets a non-SDK exception
escape: a decoded non-dict body (any status). -/
def statusShapeViolation : TransportOutcome → Bool
  | TransportOutcome.response r =>
      (match r.body with
        | Except.ok (Json.obj _) => false
        | Except.ok _ => true
        | Except.error _ => false)
  | _ => false

/-- The head of `dropWhile p l`, when it exists, fails `p`. -/
theorem head?_dropWhile_eq_some (p : Char → Bool) :
    ∀ (l : List Char) (c : Char), (l.dropWhile p).head? = some c → p c = false := by
  intro l
  induction l with
  | nil => intro c h; simp [List.dropWhile] at h
  | cons a t ih =>
    intro c h
    by_cases hpa : p a = true
    · rw [List.dropWhile_cons, if_pos hpa] at h
      exact ih c h
    · rw [List.dropWhile_cons, if_neg hpa] at h
      simp only [List.head?_cons, Option.some.injEq] at h
      subst h
      simpa using hpa

/-- `rstripSlash` leaves a string whose last character is never `'/'`. -/
theorem endsWithSlash_rstripSlash (s : String) :
    endsWithSlash (rstripSlash s) = false := by
  show (match ((s.data.reverse.dropWhile fun c => c = '/').reverse).getLast? with
        | some c => decide (c = '/')
        | none => false) = false
  rw [List.getLast?_reverse]
  cases h : (s.data.reverse.dropWhile fun c => c = '/').head? with
  | none => rfl
  | some c => exact head?_dropWhile_eq_some (fun c => c = '/') s.data.reverse c h

/-- `rstripSlash` does nothing to a string that does not end in `'/'`. -/
theorem rstripSlash_of_not_endsWithSlash (s : String) (h : endsWithSlash s = false) :
    rstripSlash s = s := by
  apply String.ext
  show (s.data.reverse.dropWhile fun c => c = '/').reverse = s.data
  cases hrev : s.data.reverse with
  | nil =>
    rw [List.reverse_eq_nil_iff.mp hrev]
    rfl
  | cons a t =>
    have hlast : s.data.getLast? = some a := by
      rw [← List.head?_reverse, hrev]; rfl
    have ha : decide (a = '/') = false := by
      unfold endsWithSlash at h
      rw [hlast] at h
      exact h
    rw [List.dropWhile_cons, if_neg (by simpa using ha), ← hrev, List.reverse_reverse]

/-- `rstripSlash` is idempotent. -/
theorem rstripSlash_idem (s : String) :
    rstripSlash (rstripSlash s) = rstripSlash s :=
  rstripSlash_of_not_endsWithSlash (rstripSlash s) (endsWithSlash_rstripSlash s)

/-- `rstripSlash` removes exactly the trailing run of `'/'` characters: the
original string is the trimmed string followed by some number of `'/'`. -/
theorem rstripSlash_append_replicate (s : String) :
    ∃ n, s = rstripSlash s ++ String.mk (List.replicate n '/') := by
  refine ⟨(s.data.reverse.takeWhile fun c => c = '/').length, String.ext ?_⟩
  rw [String.data_append]
  show s.data = (s.data.reverse.dropWhile fun c => c = '/').reverse ++
    List.replicate (s.data.reverse.takeWhile fun c => c = '/').length '/'
  have htw : (s.data.reverse.takeWhile fun c => c = '/')
      = List.replicate (s.data.reverse.takeWhile fun c => c = '/').length '/' :=
    List.eq_replicate_of_mem (fun b hb => by simpa using List.mem_takeWhile_imp hb)
  calc s.data = s.data.reverse.reverse := (List.reverse_reverse _).symm
    _ = ((s.data.reverse.takeWhile fun c => c = '/') ++
          (s.data.reverse.dropWhile fun c => c = '/')).reverse := by
        rw [List.takeWhile_append_dropWhile]
    _ = (s.data.reverse.dropWhile fun c => c = '/').reverse ++
          (s.data.reverse.takeWhile fun c => c = '/').reverse := List.reverse_append _ _
    _ = (s.data.reverse.dropWhile fun c => c = '/').reverse ++
          List.replicate (s.data.reverse.takeWhile fun c => c = '/').length '/' := by
        rw [htw, List.reverse_replicate, List.length_replicate]

/-- After `updateHeader`, looking the key up yields the new value. -/
theorem lookupHeader_updateHeader (hs : List (String × String)) (key v : String) :
    lookupHeader (updateHeader hs key v) key = some v := by
  induction hs with
  | nil => simp [updateHeader, lookupHeader]
  | cons p t ih =>
    obtain ⟨k, w⟩ := p
    by_cases hk : k = key
    · simp [updateHeader, hk, lookupHeader]
    · simp [updateHeader, hk, lookupHeader, ih]

/-- Per transport outcome, which of the three outcome kinds
`handleExecuteOutcome` produces. -/
theorem handleExecuteOutcome_shapes (tmo : String) (t : TransportOutcome) :
    isOkResult (handleExecuteOutcome tmo t) = execSuccessShape t
    ∧ isPyErrorOutcome (handleExecuteOutcome tmo t) = execShapeViolation t
    ∧ isClientErrorOutcome (handleExecuteOutcome tmo t)
        = (!execSuccessShape t && !execShapeViolation t) := by
  cases t with
  | timeout cause => exact ⟨rfl, rfl, rfl⟩
  | requestFailure cause => exact ⟨rfl, rfl, rfl⟩
  | response r =>
    obtain ⟨sc, reason, body⟩ := r
    cases hok : Response.ok ⟨sc, reason, body⟩ <;>
      rcases body with m | j <;>
      first
        | (cases j with
            | obj fields =>
              cases hl : lookupField fields "success" <;>
                simp [handleExecuteOutcome, errorFromResponse, execSuccessShape,
                  execShapeViolation, isOkResult, isPyErrorOutcome,
                  isClientErrorOutcome, hok, hl]
            | _ =>
              simp [handleExecuteOutcome, errorFromResponse, execSuccessShape,
                execShapeViolation, isOkResult, isPyErrorOutcome,
                isClientErrorOutcome, hok])
        | simp [handleExecuteOutcome, errorFromResponse, execSuccessShape,
            execShapeViolation, isOkResult, isPyErrorOutcome,
            isClientErrorOutcome, hok]

/-- Per transport outcome, which of the three outcome kinds
`handleStatusOutcome` produces. -/
theorem handleStatusOutcome_shapes (t : TransportOutcome) :
    isOkResult (handleStatusOutcome t) = statusSuccessShape t
    ∧ isPyErrorOutcome (handleStatusOutcome t) = statusShapeViolation t
    ∧ isClientErrorOutcome (handleStatusOutcome t)
        = (!statusSuccessShape t && !statusShapeViolation t) := by
  cases t with
  | timeout cause => exact ⟨rfl, rfl, rfl⟩
  | requestFailure cause => exact ⟨rfl, rfl, rfl⟩
  | response r =>
    obtain ⟨sc, reason, body⟩ := r
    cases hok : Response.ok ⟨sc, reason, body⟩ <;>
      rcases body with m | j <;>
      first
        | (cases j <;>
            simp [handleStatusOutcome, errorFromResponse, statusSuccessShape,
              statusShapeViolation, isOkResult, isPyErrorOutcome,
              isClientErrorOutcome, hok])
        | simp [handleStatusOutcome, errorFromResponse, statusSuccessShape,
            statusShapeViolation, isOkResult, isPyErrorOutcome,
            isClientErrorOutcome, hok]

/-- C1 (amended): a call yields a value exactly when the transport returned
an `ok` (status < 400) response whose body decodes to a JSON dict (containing
`'success'` for execute); on the JSON-dict-shape deviations a non-SDK Python
exception escapes instead of a `SimStudioError`; in every remaining case a
`SimStudioError` is raised; a value and an error are never both produced
(the outcome is a single `Except`). -/
theorem call_outcome_partition (c : SimStudioClient) (wid : String)
    (i : Option (List (String × Json))) (tmo : String) (transport : Transport) :
    isOkResult (c.execute_workflow wid i tmo transport)
        = execSuccessShape (transport (c.executeRequest wid i tmo))
    ∧ isPyErrorOutcome (c.execute_workflow wid i tmo transport)
        = execShapeViolation (transport (c.executeRequest wid i tmo))
    ∧ isClientErrorOutcome (c.execute_workflow wid i tmo transport)
        = (!execSuccessShape (transport (c.executeRequest wid i tmo))
            && !execShapeViolation (transport (c.executeRequest wid i tmo)))
    ∧ isOkResult (c.get_workflow_status wid transport)
        = statusSuccessShape (transport (c.statusRequest wid))
    ∧ isPyErrorOutcome (c.get_workflow_status wid transport)
        = statusShapeViolation (transport (c.statusRequest wid))
    ∧ isClientErrorOutcome (c.get_workflow_status wid transport)
        = (!statusSuccessShape (transport (c.statusRequest wid))
            && !statusShapeViolation (transport (c.statusRequest wid))) := by
  obtain ⟨h1, h2, h3⟩ := handleExecuteOutcome_shapes tmo (transport (c.executeRequest wid i tmo))
  obtain ⟨g1, g2, g3⟩ := handleStatusOutcome_shapes (transport (c.statusRequest wid))
  exact ⟨h1, h2, h3, g1, g2, g3⟩

/-- C1 counterexample: a 200 response with the parseable JSON body `{}`
makes `execute_workflow` raise a bare `KeyError` — neither an
`ExecutionResult` nor a `SimStudioError`, though the claim allows only those
two outcomes. -/
theorem call_outcome_partition_counterexample :
    (SimStudioClient.init "key" "https://simstudio.ai" []).execute_workflow "wf" none "30.0"
        (fun _ => TransportOutcome.response ⟨200, "OK", Except.ok (Json.obj [])⟩)
      = Except.error (CallError.pyError (PyError.keyError "success"))
    ∧ isOkResult ((SimStudioClient.init "key" "https://simstudio.ai" []).execute_workflow
        "wf" none "30.0"
        (fun _ => TransportOutcome.response ⟨200, "OK", Except.ok (Json.obj [])⟩)) = false
    ∧ isClientErrorOutcome ((SimStudioClient.init "key" "https://simstudio.ai" []).execute_workflow
        "wf" none "30.0"
        (fun _ => TransportOutcome.response ⟨200, "OK", Except.ok (Json.obj [])⟩)) = false :=
  ⟨rfl, rfl, rfl⟩

/-- C2 counterexample: `rstrip('/')` removes every trailing slash, so on
`"https://simstudio.ai//"` the constructor stores `"https://simstudio.ai"`,
not the claim's remove-exactly-one `"https://simstudio.ai/"`. -/
theorem base_url_trim_counterexample :
    (SimStudioClient.init "key" "https://simstudio.ai//" []).base_url = "https://simstudio.ai"
    ∧ stripOneTrailingSlash "https://simstudio.ai//" = "https://simstudio.ai/"
    ∧ (SimStudioClient.init "key" "https://simstudio.ai//" []).base_url
        ≠ stripOneTrailingSlash "https://simstudio.ai//" := by
  decide

/-- C2 (amended): construction normalizes `base_url` by removing all
trailing `'/'` characters (and exactly those): a string without a trailing
slash is unchanged, the stored value never ends in `'/'`, the trimming is
idempotent, and the original string is the stored value plus some run of
slashes. -/
theorem init_normalizes_base_url (api_key base_url : String)
    (stock : List (String × String)) :
    (endsWithSlash base_url = false →
        (SimStudioClient.init api_key base_url stock).base_url = base_url)
    ∧ endsWithSlash (SimStudioClient.init api_key base_url stock).base_url = false
    ∧ rstripSlash (SimStudioClient.init api_key base_url stock).base_url
        = (SimStudioClient.init api_key base_url stock).base_url
    ∧ ∃ n, base_url = (SimStudioClient.init api_key base_url stock).base_url
        ++ String.mk (List.replicate n '/') :=
  ⟨fun h => rstripSlash_of_not_endsWithSlash base_url h,
   endsWithSlash_rstripSlash base_url,
   rstripSlash_idem base_url,
   rstripSlash_append_replicate base_url⟩

/-- C2 witness: a base URL without a trailing slash is stored unchanged. -/
theorem init_normalizes_base_url_witness :
    (SimStudioClient.init "key" "https://simstudio.ai" []).base_url = "https://simstudio.ai" :=
  (init_normalizes_base_url "key" "https://simstudio.ai" []).1 (by decide)

/-- C3 counterexample: requests' `ok` is status < 400, so the non-2xx 304
response with body `{"error": "not deployed"}` is routed to the success
branch and raises a bare `KeyError`; no `SimStudioError` with the body's
message and `http_status = 304` is produced. -/
theorem error_response_mapping_counterexample :
    (SimStudioClient.init "key" "https://simstudio.ai" []).execute_workflow "wf" none "30.0"
        (fun _ => TransportOutcome.response ⟨304, "Not Modified",
          Except.ok (Json.obj [("error", Json.str "not deployed")])⟩)
      = Except.error (CallError.pyError (PyError.keyError "success"))
    ∧ isClientErrorOutcome ((SimStudioClient.init "key" "https://simstudio.ai" []).execute_workflow
        "wf" none "30.0"
        (fun _ => TransportOutcome.response ⟨304, "Not Modified",
          Except.ok (Json.obj [("error", Json.str "not deployed")])⟩)) = false :=
  ⟨rfl, rfl⟩

/-- C3 (amended): for every response with status ≥ 400 (the range the code
treats as an error), both calls raise a `SimStudioError` whose message is
the JSON dict body's `'error'` field when present and otherwise
`'HTTP {status}: {reason}'`, whose code is the body's `'code'` field
(absent by default), and — when the body is not parseable JSON — the
fallback message with no code; `http_status` is always the response
status. -/
theorem error_response_mapping (c : SimStudioClient) (wid : String)
    (i : Option (List (String × Json))) (tmo : String) (r : Response)
    (h : 400 ≤ r.status_code) :
    (∀ fields, r.body = Except.ok (Json.obj fields) →
      c.execute_workflow wid i tmo (fun _ => TransportOutcome.response r)
          = Except.error (CallError.simStudioError
              { message := dictGetD fields "error" (Json.str (httpFallback r))
                code := dictGet fields "code"
                status := some r.status_code })
      ∧ c.get_workflow_status wid (fun _ => TransportOutcome.response r)
          = Except.error (CallError.simStudioError
              { message := dictGetD fields "error" (Json.str (httpFallback r))
                code := dictGet fields "code"
                status := some r.status_code }))
    ∧ (∀ m, r.body = Except.error m →
      c.execute_workflow wid i tmo (fun _ => TransportOutcome.response r)
          = Except.error (CallError.simStudioError
              { message := Json.str (httpFallback r)
                code := Json.null
                status := some r.status_code })
      ∧ c.get_workflow_status wid (fun _ => TransportOutcome.response r)
          = Except.error (CallError.simStudioError
              { message := Json.str (httpFallback r)
                code := Json.null
                status := some r.status_code })) := by
  have hnok : r.ok = false := by
    simp only [Response.ok, decide_eq_false_iff_not, not_lt]
    omega
  constructor
  · intro fields hb
    constructor <;>
      simp [SimStudioClient.execute_workflow, SimStudioClient.get_workflow_status,
        handleExecuteOutcome, handleStatusOutcome, errorFromResponse, hnok, hb]
  · intro m hb
    constructor <;>
      simp [SimStudioClient.execute_workflow, SimStudioClient.get_workflow_status,
        handleExecuteOutcome, handleStatusOutcome, errorFromResponse, hnok, hb]

/-- C3 witness: a 403 response with body `{"error": "not deployed"}` raises
`SimStudioError` with message `"not deployed"`, no code, status 403. -/
theorem error_response_mapping_witness :
    (SimStudioClient.init "key" "https://simstudio.ai" []).execute_workflow "wf" none "30.0"
        (fun _ => TransportOutcome.response ⟨403, "Forbidden",
          Except.ok (Json.obj [("error", Json.str "not deployed")])⟩)
      = Except.error (CallError.simStudioError
          { message := Json.str "not deployed"
            code := Json.null
            status := some 403 }) :=
  ((error_response_mapping (SimStudioClient.init "key" "https://simstudio.ai" []) "wf" none
      "30.0" ⟨403, "Forbidden", Except.ok (Json.obj [("error", Json.str "not deployed")])⟩
      (by decide)).1 [("error", Json.str "not deployed")] rfl).1

/-- C4: a transport timeout of `execute_workflow` raises
`SimStudioError(code='TIMEOUT', message='Workflow execution timed out after
{timeout} seconds')` with no HTTP status, and any other transport failure
raises `SimStudioError(code='EXECUTION_ERROR', message='Failed to execute
workflow: {cause}')`; the `except requests.Timeout` clause precedes the
`RequestException` clause, so a timeout is never classified as
`EXECUTION_ERROR`. -/
theorem execute_transport_failure_classification (c : SimStudioClient) (wid : String)
    (i : Option (List (String × Json))) (tmo cause : String) (transport : Transport) :
    (transport (c.executeRequest wid i tmo) = TransportOutcome.timeout cause →
      c.execute_workflow wid i tmo transport
        = Except.error (CallError.simStudioError
            { message := Json.str ("Workflow execution timed out after " ++ tmo ++ " seconds")
              code := Json.str "TIMEOUT"
              status := none }))
    ∧ (transport (c.executeRequest wid i tmo) = TransportOutcome.requestFailure cause →
      c.execute_workflow wid i tmo transport
        = Except.error (CallError.simStudioError
            { message := Json.str ("Failed to execute workflow: " ++ cause)
              code := Json.str "EXECUTION_ERROR"
              status := none })) := by
  constructor <;> intro h <;>
    simp [SimStudioClient.execute_workflow, h, handleExecuteOutcome]

/-- C4 witness: a timed-out execute call with `timeout` rendered `"30.0"`. -/
theorem execute_transport_failure_classification_witness :
    (SimStudioClient.init "key" "https://simstudio.ai" []).execute_workflow "wf" none "30.0"
        (fun _ => TransportOutcome.timeout "timed out")
      = Except.error (CallError.simStudioError
          { message := Json.str "Workflow execution timed out after 30.0 seconds"
            code := Json.str "TIMEOUT"
            status := none }) :=
  (execute_transport_failure_classification _ "wf" none "30.0" "timed out" _).1 rfl

/-- C5: a 2xx response whose JSON dict body contains the boolean field
`'success'` yields an `ExecutionResult` with that `success` value, the
same-named fields `output`, `error`, `logs`, `metadata`, the renamed wire
fields `traceSpans`/`totalDuration`, each defaulting to `None` when
missing. -/
theorem execute_success_mapping (c : SimStudioClient) (wid : String)
    (i : Option (List (String × Json))) (tmo : String) (r : Response)
    (fields : List (String × Json)) (b : Bool)
    (hlo : 200 ≤ r.status_code) (hhi : r.status_code < 300)
    (hbody : r.body = Except.ok (Json.obj fields))
    (hsucc : lookupField fields "success" = some (Json.bool b)) :
    c.execute_workflow wid i tmo (fun _ => TransportOutcome.response r)
      = Except.ok
          { success := Json.bool b
            output := dictGet fields "output"
            error := dictGet fields "error"
            logs := dictGet fields "logs"
            metadata := dictGet fields "metadata"
            trace_spans := dictGet fields "traceSpans"
            total_duration := dictGet fields "totalDuration" } := by
  have hok : r.ok = true := by
    simp only [Response.ok, decide_eq_true_eq]
    omega
  simp [SimStudioClient.execute_workflow, handleExecuteOutcome, hok, hbody, hsucc]

/-- C5 witness: a 200 response with body
`{"success": true, "output": {"x": 1}}` yields `success = true`,
`output = {"x": 1}`, every other optional field absent. -/
theorem execute_success_mapping_witness :
    (SimStudioClient.init "key" "https://simstudio.ai" []).execute_workflow "wf" none "30.0"
        (fun _ => TransportOutcome.response ⟨200, "OK",
          Except.ok (Json.obj [("success", Json.bool true),
            ("output", Json.obj [("x", Json.num 1)])])⟩)
      = Except.ok
          { success := Json.bool true
            output := Json.obj [("x", Json.num 1)]
            error := Json.null
            logs := Json.null
            metadata := Json.null
            trace_spans := Json.null
            total_duration := Json.null } :=
  execute_success_mapping (SimStudioClient.init "key" "https://simstudio.ai" []) "wf" none "30.0"
    ⟨200, "OK", Except.ok (Json.obj [("success", Json.bool true),
      ("output", Json.obj [("x", Json.num 1)])])⟩
    [("success", Json.bool true), ("output", Json.obj [("x", Json.num 1)])]
    true (by decide) (by decide) rfl rfl

/-- C6 counterexample: when the status call raises a non-SDK error (here an
`AttributeError`, because the 200 body decodes to the non-dict `[]`),
`validate_workflow` propagates it instead of returning `false`. -/
theorem validate_swallow_counterexample :
    (SimStudioClient.init "key" "https://simstudio.ai" []).validate_workflow "wf"
        (fun _ => TransportOutcome.response ⟨200, "OK", Except.ok (Json.arr [])⟩)
      = Except.error (CallError.pyError (PyError.attributeError "get"))
    ∧ isOkResult ((SimStudioClient.init "key" "https://simstudio.ai" []).validate_workflow "wf"
        (fun _ => TransportOutcome.response ⟨200, "OK", Except.ok (Json.arr [])⟩)) = false :=
  ⟨rfl, rfl⟩

/-- C6 (amended): `validate_workflow` returns the `is_deployed` of a
successful `get_workflow_status`, converts a `SimStudioError` from the
status call into `false` without propagating it, propagates a non-SDK
exception unchanged, and never itself raises a `SimStudioError`. -/
theorem validate_swallows_sdk_errors (c : SimStudioClient) (wid : String)
    (transport : Transport) :
    (∀ status, c.get_workflow_status wid transport = Except.ok status →
        c.validate_workflow wid transport = Except.ok status.is_deployed)
    ∧ (∀ e, c.get_workflow_status wid transport
          = Except.error (CallError.simStudioError e) →
        c.validate_workflow wid transport = Except.ok (Json.bool false))
    ∧ (∀ e, c.get_workflow_status wid transport
          = Except.error (CallError.pyError e) →
        c.validate_workflow wid transport = Except.error (CallError.pyError e))
    ∧ isClientErrorOutcome (c.validate_workflow wid transport) = false := by
  refine ⟨?_, ?_, ?_, ?_⟩
  · intro status h
    simp [SimStudioClient.validate_workflow, h]
  · intro e h
    simp [SimStudioClient.validate_workflow, h]
  · intro e h
    simp [SimStudioClient.validate_workflow, h]
  · cases hg : c.get_workflow_status wid transport with
    | ok status => simp [SimStudioClient.validate_workflow, hg, isClientErrorOutcome]
    | error e =>
      cases e with
      | simStudioError e2 => simp [SimStudioClient.validate_workflow, hg, isClientErrorOutcome]
      | pyError e2 => simp [SimStudioClient.validate_workflow, hg, isClientErrorOutcome]

/-- C6 witness: a 500 response with an unparseable body makes the status
call raise a `SimStudioError`, and `validate_workflow` returns `false`. -/
theorem validate_swallows_sdk_errors_witness :
    (SimStudioClient.init "key" "https://simstudio.ai" []).validate_workflow "wf"
        (fun _ => TransportOutcome.response ⟨500, "Internal Server Error",
          Except.error "Expecting value: line 1 column 1 (char 0)"⟩)
      = Except.ok (Json.bool false) :=
  (validate_swallows_sdk_errors _ "wf" _).2.1
    { message := Json.str "HTTP 500: Internal Server Error"
      code := Json.null
      status := some 500 }
    rfl

/-- C7: the stored `base_url` never ends with `'/'`: this holds after
construction and after every `set_base_url`, and `set_api_key` — the only
other state mutator in the client — leaves `base_url` unchanged (the
request-building and response-handling operations do not write the state at
all). -/
theorem base_url_invariant (k u k2 u2 : String) (stock : List (String × String))
    (c : SimStudioClient) :
    endsWithSlash (SimStudioClient.init k u stock).base_url = false
    ∧ endsWithSlash (c.set_base_url u2).base_url = false
    ∧ (c.set_api_key k2).base_url = c.base_url :=
  ⟨endsWithSlash_rstripSlash u, endsWithSlash_rstripSlash u2, rfl⟩

/-- C8 counterexample: a 200 status response whose body is the parseable
JSON `[]` (missing all four fields) raises a bare `AttributeError` rather
than yielding a defaulted `WorkflowStatus`. -/
theorem status_success_mapping_counterexample :
    (SimStudioClient.init "key" "https://simstudio.ai" []).get_workflow_status "wf"
        (fun _ => TransportOutcome.response ⟨200, "OK", Except.ok (Json.arr [])⟩)
      = Except.error (CallError.pyError (PyError.attributeError "get"))
    ∧ isOkResult ((SimStudioClient.init "key" "https://simstudio.ai" []).get_workflow_status "wf"
        (fun _ => TransportOutcome.response ⟨200, "OK", Except.ok (Json.arr [])⟩)) = false :=
  ⟨rfl, rfl⟩

/-- C8 (amended): a 2xx status response whose body decodes to a JSON dict
yields a `WorkflowStatus` mapping `isDeployed`→`is_deployed` (default
false), `deployedAt`→`deployed_at` (default absent),
`isPublished`→`is_published` (default false),
`needsRedeployment`→`needs_redeployment` (default false) — never an error,
however many of the fields are missing. -/
theorem status_success_mapping (c : SimStudioClient) (wid : String) (r : Response)
    (fields : List (String × Json))
    (hlo : 200 ≤ r.status_code) (hhi : r.status_code < 300)
    (hbody : r.body = Except.ok (Json.obj fields)) :
    c.get_workflow_status wid (fun _ => TransportOutcome.response r)
      = Except.ok
          { is_deployed := dictGetD fields "isDeployed" (Json.bool false)
            deployed_at := dictGet fields "deployedAt"
            is_published := dictGetD fields "isPublished" (Json.bool false)
            needs_redeployment := dictGetD fields "needsRedeployment" (Json.bool false) } := by
  have hok : r.ok = true := by
    simp only [Response.ok, decide_eq_true_eq]
    omega
  simp [SimStudioClient.get_workflow_status, handleStatusOutcome, hok, hbody]

/-- C8 witness: body `{"isDeployed": true, "deployedAt":
"2023-01-01T00:00:00Z"}` yields those two fields and the defaults
`is_published = false`, `needs_redeployment = false`. -/
theorem status_success_mapping_witness :
    (SimStudioClient.init "key" "https://simstudio.ai" []).get_workflow_status "wf"
        (fun _ => TransportOutcome.response ⟨200, "OK",
          Except.ok (Json.obj [("isDeployed", Json.bool true),
            ("deployedAt", Json.str "2023-01-01T00:00:00Z")])⟩)
      = Except.ok
          { is_deployed := Json.bool true
            deployed_at := Json.str "2023-01-01T00:00:00Z"
            is_published := Json.bool false
            needs_redeployment := Json.bool false } :=
  status_success_mapping (SimStudioClient.init "key" "https://simstudio.ai" []) "wf"
    ⟨200, "OK", Except.ok (Json.obj [("isDeployed", Json.bool true),
      ("deployedAt", Json.str "2023-01-01T00:00:00Z")])⟩
    [("isDeployed", Json.bool true), ("deployedAt", Json.str "2023-01-01T00:00:00Z")]
    (by decide) (by decide) rfl

/-- C9: after `set_api_key k` both requests carry `k` in the `X-API-Key`
header and `base_url` is unchanged; after `set_base_url u` both requests use
the normalized `u` as URL prefix while `api_key` and the session headers are
unchanged. -/
theorem setter_frame_effects (c : SimStudioClient) (k u wid : String)
    (i : Option (List (String × Json))) (tmo : String) :
    lookupHeader ((c.set_api_key k).executeRequest wid i tmo).headers "X-API-Key" = some k
    ∧ lookupHeader ((c.set_api_key k).statusRequest wid).headers "X-API-Key" = some k
    ∧ (c.set_api_key k).base_url = c.base_url
    ∧ ((c.set_base_url u).executeRequest wid i tmo).url
        = rstripSlash u ++ "/api/workflows/" ++ wid ++ "/execute"
    ∧ ((c.set_base_url u).statusRequest wid).url
        = rstripSlash u ++ "/api/workflows/" ++ wid ++ "/status"
    ∧ (c.set_base_url u).api_key = c.api_key
    ∧ (c.set_base_url u).session_headers = c.session_headers :=
  ⟨lookupHeader_updateHeader c.session_headers "X-API-Key" k,
   lookupHeader_updateHeader c.session_headers "X-API-Key" k,
   rfl, rfl, rfl, rfl, rfl⟩

/-- C10: `execute_workflow_sync` agrees with `execute_workflow` on every
client state, argument list, and transport — a pure passthrough. -/
theorem execute_workflow_sync_passthrough (c : SimStudioClient) (wid : String)
    (i : Option (List (String × Json))) (tmo : String) (transport : Transport) :
    c.execute_workflow_sync wid i tmo transport = c.execute_workflow wid i tmo transport :=
  rfl

end SimStudio
